import Mathlib

/-!
Shallow embedding of the auto-opti-ML repository (parser, validator and the
two solver wrappers) and proofs about it.

Python strings become `String`, Python lists become `List`, numeric payloads
(variable values, bounds, objective values, right-hand sides) become `Rat` —
the embedded code only copies these values around, it never computes with
them.  Fallible Python code (a `raise` escaping a function) is embedded as
`Except`.  The two solver wrappers execute untrusted text and call an external
solver binary; those two effects are outside the embedding, so `solve_model`
takes the outcome of its try-block body as an explicit parameter and the
temporary-file side effect is threaded as an explicit list of file names.
-/

namespace AutoOptiML

/-! ## Text extractor (src/parser/text_to_model.py) -/

/-- All non-overlapping occurrences of the literal pattern `pat` in a
character list, scanned left to right: exactly what `re.findall` returns for
a pattern that contains no regex metacharacter and no capture group (each
match is the pattern itself).  `fuel` bounds the scan; every step consumes at
least one character, so `fuel = s.length` always suffices. -/
def reFindallLit (pat : List Char) : Nat → List Char → List (List Char)
  | 0, _ => []
  | _, [] => []
  | Nat.succ fuel, c :: rest =>
    if pat ≠ [] ∧ pat.isPrefixOf (c :: rest) then
      pat :: reFindallLit pat fuel (List.drop (pat.length - 1) rest)
    else
      reFindallLit pat fuel rest

/-- The pattern of `extract_code_blocks`, `r'``````'`: the literal string of
six backtick characters.  It has no regex metacharacter (so `re.findall`
reads it literally) and no dot (so `re.DOTALL` changes nothing). -/
def codeBlockPattern : String := "``````"

/-- `OptimizationModelParser.extract_code_blocks`: `re.findall` of the
six-backtick literal pattern over the text; when nothing matches, the whole
input text is returned as the single candidate block (a warning is logged,
which the embedding drops). -/
def extract_code_blocks (text : String) : List String :=
  let code_blocks :=
    (reFindallLit codeBlockPattern.data text.data.length text.data).map String.mk
  if code_blocks.isEmpty then [text] else code_blocks

/-- Splits `s` around the first occurrence of `pat`: `some (pre, post)` with
`s = pre ++ pat ++ post` and `pat` not occurring in any shorter prefix, or
`none` when `pat` does not occur. -/
def splitAtPat (pat : List Char) : List Char → Option (List Char × List Char)
  | [] => if pat = [] then some ([], []) else none
  | c :: rest =>
    if pat.isPrefixOf (c :: rest) then
      some ([], List.drop pat.length (c :: rest))
    else
      match splitAtPat pat rest with
      | some (pre, post) => some (c :: pre, post)
      | none => none

/-- A markdown code fence: three backticks. -/
def tripleFence : String := "```"

/-- The enclosed contents of the fenced code blocks of a character list, in
order of appearance: each block is the text standing between an opening
triple-backtick fence and the next closing one.  `fuel = s.length`
suffices (each found block consumes at least the two fences). -/
def fencedBlocks : Nat → List Char → List (List Char)
  | 0, _ => []
  | Nat.succ fuel, s =>
    match splitAtPat tripleFence.data s with
    | none => []
    | some (_, afterOpen) =>
      match splitAtPat tripleFence.data afterOpen with
      | none => []
      | some (block, afterClose) => block :: fencedBlocks fuel afterClose

/-- The Extractor as the spec words it (a second definition, for comparison
with `extract_code_blocks` above): scan the text for fenced code-block
delimiters and return every enclosed block in order of appearance; with zero
fenced blocks, return the full input text as the single candidate. -/
def extract_code_blocks_spec (text : String) : List String :=
  let blocks := (fencedBlocks text.data.length text.data).map String.mk
  if blocks.isEmpty then [text] else blocks

/-- One step of Python `max(code_blocks, key=len)`: the running best is
replaced only when a later element is strictly longer, so on ties the
earlier element is kept. -/
def pickLonger (best y : String) : String :=
  if best.length < y.length then y else best

/-- The fragment selection `max(code_blocks, key=len)` performed by
`parse_to_model` (the spec calls it `select_best_fragment`): `none` on the
empty list, where Python `max` raises, else the first element of greatest
character length. -/
def select_best_fragment : List String → Option String
  | [] => none
  | x :: xs => some (xs.foldl pickLonger x)

/-! ## Model analyzer (src/parser/text_to_model.py) -/

/-- Python's `\s` character class over the characters that occur in source
text: space, tab, newline, carriage return, vertical tab, form feed. -/
def isPySpace (c : Char) : Bool :=
  c = ' ' || c = '\t' || c = '\n' || c = '\r' || c = '\x0b' || c = '\x0c'

/-- Python `str.lower()` over the ASCII strings the code compares:
character-wise lower-casing. -/
def pyLower (s : String) : String := String.mk (s.data.map Char.toLower)

/-- Python `str.strip()`: drop leading and trailing whitespace. -/
def pyStrip (s : String) : String :=
  String.mk (((s.data.dropWhile isPySpace).reverse.dropWhile isPySpace).reverse)

/-- The tail of the import pattern after its literal head has matched:
`\s+([^\n]+)`.  The argument counts the whitespace characters currently
claimed by the greedy `\s+` (the caller starts it at the full whitespace
run); it backtracks until the capture `[^\n]+` can start with a non-newline
character, and then captures greedily up to the next newline.  Returns the
capture and the remainder of the text after the whole match. -/
def importTail : Nat → List Char → Option (List Char × List Char)
  | 0, _ => none
  | Nat.succ a, t =>
    match List.drop (Nat.succ a) t with
    | [] => importTail a t
    | c :: rest =>
      if c = '\n' then importTail a t
      else some ((c :: rest).takeWhile (fun d => d ≠ '\n'),
                 (c :: rest).dropWhile (fun d => d ≠ '\n'))

/-- The literal head of the import pattern. -/
def importKw : String := "import"

/-- `re.findall` of the pattern `importKw` followed by `\s+([^\n]+)` over the
code: scan left to right, at each position try the literal head and then
`importTail`; on a match emit the capture and resume after the match, else
advance one character.  `fuel = s.length` suffices. -/
def findImportMatches : Nat → List Char → List (List Char)
  | 0, _ => []
  | _, [] => []
  | Nat.succ fuel, c :: rest =>
    if importKw.data.isPrefixOf (c :: rest) then
      match importTail ((List.drop importKw.length (c :: rest)).takeWhile isPySpace).length
          (List.drop importKw.length (c :: rest)) with
      | some (cap, after) => cap :: findImportMatches fuel after
      | none => findImportMatches fuel rest
    else
      findImportMatches fuel rest

/-- The literal tail of the concrete-model pattern. -/
def concreteDecl : String := "pyo.ConcreteModel()"

/-- One attempt of the pattern `model\s*=\s*pyo\.ConcreteModel\(\)` anchored
at the start of `s`: the literal `model`, any whitespace, `=`, any
whitespace, then the literal constructor call.  `=` is not whitespace, so
the greedy `\s*` needs no backtracking. -/
def concreteModelAt (s : List Char) : Bool :=
  if ("model".data).isPrefixOf s then
    match (List.drop 5 s).dropWhile isPySpace with
    | '=' :: t2 => concreteDecl.data.isPrefixOf (t2.dropWhile isPySpace)
    | _ => false
  else false

/-- `re.search` of the concrete-model pattern: does it match at any
position? -/
def searchConcreteModel : List Char → Bool
  | [] => false
  | c :: rest => concreteModelAt (c :: rest) || searchConcreteModel rest

/-- The structural-facts record `_parse_pyomo_model` builds (a Python dict
with a fixed key set, embedded as a structure). -/
structure PyomoFacts where
  raw_code : String
  imports : List String
  sets : List String
  parameters : List String
  «variables» : List String
  objective : Option String
  constraints : List String
  solver : Option String
  model_type : String
deriving DecidableEq, Repr

/-- The structural-facts record `_parse_pulp_model` builds. -/
structure PulpFacts where
  raw_code : String
  imports : List String
  «variables» : List String
  objective_sense : Option String
  constraints : List String
  solver : Option String
deriving DecidableEq, Repr

/-- `OptimizationModelParser._parse_pyomo_model`: collect the stripped
captures of the import pattern, and classify the model as concrete exactly
when the concrete-model pattern occurs in the code. -/
def _parse_pyomo_model (code : String) : PyomoFacts where
  raw_code := code
  imports := (findImportMatches code.data.length code.data).map
    (fun cap => pyStrip (String.mk cap))
  sets := []
  parameters := []
  «variables» := []
  objective := none
  constraints := []
  solver := none
  model_type := if searchConcreteModel code.data then "concrete" else "abstract"

/-- `OptimizationModelParser._parse_pulp_model`: a stub that records only the
raw code. -/
def _parse_pulp_model (code : String) : PulpFacts where
  raw_code := code
  imports := []
  «variables» := []
  objective_sense := none
  constraints := []
  solver := none

/-- The Python exceptions the embedded code raises. -/
inductive PyErr where
  | valueError (msg : String)
  | attributeError (msg : String)
deriving DecidableEq, Repr

/-- The two framework-specific facts records, as the parser returns one or
the other. -/
inductive ParsedModel where
  | pyomoFacts (facts : PyomoFacts)
  | pulpFacts (facts : PulpFacts)
deriving DecidableEq, Repr

/-- `OptimizationModelParser.parse_to_model`: extract the candidate blocks,
pick the longest (Python `max(code_blocks, key=len)`), then dispatch on the
lower-cased framework name; an unknown framework raises `ValueError`. -/
def parse_to_model (text : String) (framework : String) : Except PyErr ParsedModel :=
  let code_blocks := extract_code_blocks text
  match select_best_fragment code_blocks with
  | none => Except.error (PyErr.valueError "max() arg is an empty sequence")
  | some code =>
    if pyLower framework = "pyomo" then
      Except.ok (ParsedModel.pyomoFacts (_parse_pyomo_model code))
    else if pyLower framework = "pulp" then
      Except.ok (ParsedModel.pulpFacts (_parse_pulp_model code))
    else
      Except.error (PyErr.valueError ("Unsupported framework: " ++ framework))

/-! ## Model validator (src/parser/validator.py) -/

/-- Is `pat` a contiguous substring (Python `in`)? -/
def containsSub (pat : List Char) : List Char → Bool
  | [] => pat.isEmpty
  | c :: rest => pat.isPrefixOf (c :: rest) || containsSub pat rest

/-- What `validate_model` reads from its `model_components` dict: only the
`imports` key (with default `[]` when absent, via `dict.get`). -/
structure ModelComponents where
  imports : Option (List String)
deriving DecidableEq, Repr

/-- `ModelValidator._validate_pyomo_model`: one issue when no import line
mentions `pyomo` (case-insensitively); the flag is the emptiness of the
issue list. -/
def _validate_pyomo_model (mc : ModelComponents) : Bool × List String :=
  let issues : List String :=
    if (mc.imports.getD []).any (fun imp => containsSub "pyomo".data (pyLower imp).data)
    then [] else ["Missing Pyomo import"]
  (decide (issues.length = 0), issues)

/-- `ModelValidator.validate_model`: dispatch on the lower-cased framework
name.  The `pulp` arm calls `self._validate_pulp_model`, a method the class
never defines, so Python raises `AttributeError` at the attribute lookup;
an unknown framework returns a failed verdict with one issue string. -/
def validate_model (mc : ModelComponents) (framework : String) :
    Except PyErr (Bool × List String) :=
  if pyLower framework = "pyomo" then
    Except.ok (_validate_pyomo_model mc)
  else if pyLower framework = "pulp" then
    Except.error (PyErr.attributeError
      "'ModelValidator' object has no attribute '_validate_pulp_model'")
  else
    Except.ok (false, ["Unsupported framework: " ++ framework])

/-! ## Solution records (the dicts the solvers return) -/

/-- A Python value as it occurs in a solution record: `None`, a string, a
number, or a nested dict (embedded as an association list in insertion
order; the keys the solvers insert are pairwise distinct). -/
inductive PyValue where
  | pyNone
  | str (s : String)
  | num (q : Rat)
  | dict (entries : List (String × PyValue))
deriving Repr

/-- A nullable number as the records store one. -/
def ratOpt : Option Rat → PyValue
  | none => PyValue.pyNone
  | some q => PyValue.num q

/-- The record both solvers build in their `except Exception` arm:
`{"status": "error", "message": str(e)}`. -/
def errorRecord (msg : String) : List (String × PyValue) :=
  [("status", PyValue.str "error"), ("message", PyValue.str msg)]

/-- The message of the `ValueError` raised when the executed fragment binds
no `model` variable. -/
def noModelMsg : String := "Model code did not create a 'model' variable"

/-! ## PuLP solver (src/solver/pulp_solver.py) -/

/-- The status codes PuLP assigns to a solved problem (the keys of the
`pl.LpStatus` dict). -/
inductive LpStatusCode where
  | notSolved
  | optimal
  | infeasible
  | unbounded
  | undefined
deriving DecidableEq, Repr

/-- The `pl.LpStatus` dict: status code to display string. -/
def LpStatus : LpStatusCode → String
  | LpStatusCode.notSolved => "Not Solved"
  | LpStatusCode.optimal => "Optimal"
  | LpStatusCode.infeasible => "Infeasible"
  | LpStatusCode.unbounded => "Unbounded"
  | LpStatusCode.undefined => "Undefined"

/-- What `_process_results` reads from one `pl.LpVariable` of the solved
model: name, current value, declared bounds, category. -/
structure LpVariable where
  name : String
  varValue : Option Rat
  lowBound : Option Rat
  upBound : Option Rat
  cat : String
deriving DecidableEq, Repr

/-- A PuLP constraint comparison sense (`pl.LpConstraintLE` and friends). -/
inductive LpSense where
  | LE
  | GE
  | EQ
deriving DecidableEq, Repr

/-- What `_process_results` reads from one constraint of the solved model:
its dict key, sense, stored constant and textual rendering (`str(c)`). -/
structure LpConstraintData where
  name : String
  sense : LpSense
  constant : Rat
  text : String
deriving DecidableEq, Repr

/-- The solved PuLP model as `_process_results` consumes it. -/
structure LpProblem where
  status : LpStatusCode
  objective : Option Rat
  «variables» : List LpVariable
  constraints : List LpConstraintData
deriving DecidableEq, Repr

/-- `PuLPSolver`: after construction it holds only the (lower-cased, possibly
downgraded) solver name. -/
structure PuLPSolver where
  solver_name : String
deriving DecidableEq, Repr

/-- The keys of `PuLPSolver.SOLVER_MAP`. -/
def SOLVER_MAP_keys : List String := ["cbc", "gurobi", "glpk", "cplex"]

/-- `PuLPSolver.__init__` with `_check_solver_availability` inlined: lower-case
the name, raise `ValueError` when it is not a `SOLVER_MAP` key, then probe the
back-end; when the probe raises `pl.PulpSolverError` (the probe is an external
effect, passed in as `avail`), log a warning and fall back to `cbc` — the
constructor itself never fails over availability. -/
def PuLPSolver.init (avail : String → Bool) (solver_name : String) :
    Except PyErr PuLPSolver :=
  let name := pyLower solver_name
  if SOLVER_MAP_keys.contains name then
    if avail name then Except.ok ⟨name⟩ else Except.ok ⟨"cbc"⟩
  else
    Except.error (PyErr.valueError ("Solver " ++ solver_name ++
      " not supported. Choose from: ['cbc', 'gurobi', 'glpk', 'cplex']"))

/-- The per-variable entry `_process_results` builds: the variable's value,
bounds and category, copied verbatim. -/
def varEntry (v : LpVariable) : String × PyValue :=
  (v.name, PyValue.dict
    [("value", ratOpt v.varValue),
     ("lower_bound", ratOpt v.lowBound),
     ("upper_bound", ratOpt v.upBound),
     ("category", PyValue.str v.cat)])

/-- The rendering of a constraint sense in `_process_results`. -/
def senseStr : LpSense → String
  | LpSense.LE => "≤"
  | LpSense.GE => "≥"
  | LpSense.EQ => "="

/-- The per-constraint entry `_process_results` builds. -/
def constraintEntry (c : LpConstraintData) : String × PyValue :=
  (c.name, PyValue.dict
    [("sense", PyValue.str (senseStr c.sense)),
     ("rhs", PyValue.num c.constant),
     ("expression", PyValue.str c.text)])

/-- `PuLPSolver._process_results`: the uniform solution record of a solved
PuLP model — status string, objective value, one entry per variable, one per
constraint, and the solver name used. -/
def PuLPSolver._process_results (self : PuLPSolver) (m : LpProblem) :
    List (String × PyValue) :=
  [("status", PyValue.str (LpStatus m.status)),
   ("objective_value", ratOpt m.objective),
   ("variables", PyValue.dict (m.variables.map varEntry)),
   ("constraints", PyValue.dict (m.constraints.map constraintEntry)),
   ("solver_used", PyValue.str self.solver_name)]

/-- The outcome of the try-block body of `PuLPSolver.solve_model`.  Executing
the fragment and invoking the external solver are outside the embedding, so
the outcome is a parameter: the `exec` raises; the namespace it produces has
no `model` key (the code then raises `ValueError`); `model.solve` raises;
the solve succeeds; or a failure not derived from `Exception` escapes the
`except Exception` arm (e.g. `KeyboardInterrupt`). -/
inductive PulpExecOutcome where
  | execRaises (msg : String)
  | noModelBound
  | solveRaises (msg : String)
  | solved (m : LpProblem)
  | fatal (msg : String)
deriving DecidableEq, Repr

/-- `PuLPSolver.solve_model`: create the staging temp file (named
`tmpName`, `delete=False`), run the try block, and in `finally` remove the
file on every path.  The file system is the explicit list `fs`; any caught
exception becomes an `errorRecord`, a fatal failure propagates as
`Except.error`. -/
def PuLPSolver.solve_model (self : PuLPSolver) (tmpName : String)
    (outcome : PulpExecOutcome) (fs : List String) :
    Except String (List (String × PyValue)) × List String :=
  let fs1 := tmpName :: fs
  let fs2 := fs1.erase tmpName
  match outcome with
  | PulpExecOutcome.execRaises msg => (Except.ok (errorRecord msg), fs2)
  | PulpExecOutcome.noModelBound => (Except.ok (errorRecord noModelMsg), fs2)
  | PulpExecOutcome.solveRaises msg => (Except.ok (errorRecord msg), fs2)
  | PulpExecOutcome.solved m => (Except.ok (self._process_results m), fs2)
  | PulpExecOutcome.fatal msg => (Except.error msg, fs2)

/-! ## Pyomo solver (src/solver/pyomo_solver.py) -/

/-- `PyomoSolver`: holds the solver name given at construction. -/
structure PyomoSolver where
  solver_name : String
deriving DecidableEq, Repr

/-- `PyomoSolver.__init__` with `_check_solver_availability` inlined: no
registry check at all, and the availability probe (`avail`, an external
effect) only drives a log-warning — the name is stored verbatim in every
case and construction always succeeds. -/
def PyomoSolver.init (avail : String → Bool) (solver_name : String) : PyomoSolver :=
  ⟨solver_name⟩

/-- The solved in-memory Pyomo model, reduced to what matters for the
normalization claims: the names of its declared decision variables. -/
structure PyomoModel where
  «variables» : List String
deriving DecidableEq, Repr

/-- What `_process_results` reads from the `results` object returned by
`solver.solve(model)`: `results.solver.status`,
`results.solver.termination_condition` and `results.solver.time`. -/
structure SolverResults where
  solver_status : String
  termination_condition : String
  time : Rat
deriving DecidableEq, Repr

/-- `PyomoSolver._process_results`: the record is built from `results.solver`
alone — `objective_value` is the literal `None` and the `variables` and
`constraints` dicts are the literal empty dicts, whatever the model holds. -/
def PyomoSolver._process_results (self : PyomoSolver) (model : PyomoModel)
    (results : SolverResults) : List (String × PyValue) :=
  [("status", PyValue.str results.solver_status),
   ("termination_condition", PyValue.str results.termination_condition),
   ("objective_value", PyValue.pyNone),
   ("variables", PyValue.dict []),
   ("constraints", PyValue.dict []),
   ("solver_time", PyValue.num results.time)]

/-- The outcome of the try-block body of `PyomoSolver.solve_model` (same
shape as for PuLP; a successful solve yields the model and the results
object). -/
inductive PyomoExecOutcome where
  | execRaises (msg : String)
  | noModelBound
  | solveRaises (msg : String)
  | solved (m : PyomoModel) (r : SolverResults)
  | fatal (msg : String)
deriving DecidableEq, Repr

/-- `PyomoSolver.solve_model`: identical control skeleton to the PuLP
variant — temp file created, try block, `except Exception` to an error
record, `finally os.remove` on every path. -/
def PyomoSolver.solve_model (self : PyomoSolver) (tmpName : String)
    (outcome : PyomoExecOutcome) (fs : List String) :
    Except String (List (String × PyValue)) × List String :=
  let fs1 := tmpName :: fs
  let fs2 := fs1.erase tmpName
  match outcome with
  | PyomoExecOutcome.execRaises msg => (Except.ok (errorRecord msg), fs2)
  | PyomoExecOutcome.noModelBound => (Except.ok (errorRecord noModelMsg), fs2)
  | PyomoExecOutcome.solveRaises msg => (Except.ok (errorRecord msg), fs2)
  | PyomoExecOutcome.solved m r => (Except.ok (self._process_results m r), fs2)
  | PyomoExecOutcome.fatal msg => (Except.error msg, fs2)

/-- The entries of the `variables` dict of a solution record (`[]` when the
key is absent or not a dict). -/
def variablesEntries (rec : List (String × PyValue)) : List (String × PyValue) :=
  match rec.lookup "variables" with
  | some (PyValue.dict l) => l
  | _ => []

/-- The spec's example model, solved: maximize `10*x1 + 15*x2` subject to
`5*x1 + 7*x2 <= 100` with both variables bounded below by 0 and continuous.
The LP optimum the external solver reports is `x1 = 0`, `x2 = 100/7` with
objective `1500/7`; PuLP stores the inequality as `5*x1 + 7*x2 - 100 <= 0`,
so the stored constant is `-100`. -/
def exampleSolved : LpProblem where
  status := LpStatusCode.optimal
  objective := some (1500 / 7)
  «variables» :=
    [{ name := "x1", varValue := some 0, lowBound := some 0, upBound := none,
       cat := "Continuous" },
     { name := "x2", varValue := some (100 / 7), lowBound := some 0, upBound := none,
       cat := "Continuous" }]
  constraints :=
    [{ name := "_C1", sense := LpSense.LE, constant := -100,
       text := "5*x1 + 7*x2 <= 100" }]

/-! ## Helper lemmas -/

/-- The extractor always returns a non-empty list: either the found matches
or the single-element fallback. -/
theorem extract_code_blocks_ne_nil (text : String) : extract_code_blocks text ≠ [] := by
  unfold extract_code_blocks
  cases hr : List.map String.mk
      (reFindallLit codeBlockPattern.data text.data.length text.data) with
  | nil => simp [hr]
  | cons a t => simp [hr]

/-- On a non-empty list the fragment selection yields a value (Python `max`
raises only on an empty sequence). -/
theorem select_best_fragment_some (l : List String) (h : l ≠ []) :
    ∃ b, select_best_fragment l = some b := by
  cases l with
  | nil => exact absurd rfl h
  | cons x xs => exact ⟨xs.foldl pickLonger x, rfl⟩

/-- Splitting lemma for the fold behind `select_best_fragment`: the fold over
`xs` with accumulator `b` picks an element of `b :: xs` that is at least as
long as the accumulator and as every other element, and every element
standing before it is strictly shorter. -/
theorem pickLonger_foldl_split (xs : List String) (b : String) :
    ∃ l₁ l₂, b :: xs = l₁ ++ (xs.foldl pickLonger b) :: l₂ ∧
      b.length ≤ (xs.foldl pickLonger b).length ∧
      (∀ y ∈ l₁, y.length < (xs.foldl pickLonger b).length) ∧
      (∀ y ∈ l₂, y.length ≤ (xs.foldl pickLonger b).length) := by
  induction xs generalizing b with
  | nil =>
    exact ⟨[], [], by simp, le_refl _, by simp, by simp⟩
  | cons y t ih =>
    by_cases h : b.length < y.length
    · have hpick : pickLonger b y = y := by simp [pickLonger, h]
      obtain ⟨l₁, l₂, hdec, hacc, h₁, h₂⟩ := ih y
      rw [List.foldl_cons, hpick]
      refine ⟨b :: l₁, l₂, ?_, ?_, ?_, h₂⟩
      · rw [List.cons_append, ← hdec]
      · exact le_trans (le_of_lt h) hacc
      · intro z hz
        rcases List.mem_cons.mp hz with rfl | hz
        · exact lt_of_lt_of_le h hacc
        · exact h₁ z hz
    · have hpick : pickLonger b y = b := by simp [pickLonger, h]
      obtain ⟨l₁, l₂, hdec, hacc, h₁, h₂⟩ := ih b
      rw [List.foldl_cons, hpick]
      cases l₁ with
      | nil =>
        simp only [List.nil_append] at hdec
        injection hdec with hb ht
        refine ⟨[], y :: l₂, ?_, hacc, by simp, ?_⟩
        · rw [List.nil_append, ← hb, ← ht]
        · intro z hz
          rcases List.mem_cons.mp hz with rfl | hz
          · rw [← hb]
            exact le_of_not_lt h
          · exact h₂ z hz
      | cons a t₁ =>
        rw [List.cons_append] at hdec
        injection hdec with hb ht
        have hbr : a.length < (t.foldl pickLonger b).length :=
          h₁ a (List.mem_cons_self a t₁)
        refine ⟨a :: y :: t₁, l₂, ?_, hacc, ?_, h₂⟩
        · rw [List.cons_append, List.cons_append, ← hb, ← ht]
        · intro z hz
          rcases List.mem_cons.mp hz with rfl | hz
          · exact hbr
          · rcases List.mem_cons.mp hz with rfl | hz
            · calc z.length ≤ b.length := le_of_not_lt h
                _ = a.length := by rw [hb]
                _ < _ := hbr
            · exact h₁ z (List.mem_cons_of_mem a hz)

/-- The `variables` dict of a PuLP solution record holds exactly one entry
per model variable, in model order. -/
theorem variablesEntries_pulp (self : PuLPSolver) (m : LpProblem) :
    variablesEntries (self._process_results m) = m.variables.map varEntry := rfl

/-! ## The claims -/

/-- C1: the spec promises that `extract_code_blocks` returns the enclosed
fenced blocks in order (and the full text only when there is no fenced
block), but the pattern `r'``````'` matches only a literal run of six
backticks and captures nothing, so on an input holding one ordinary fenced
block the function returns the whole input instead of the enclosed block:
the code contradicts its own docstring, a code bug. -/
theorem extract_code_blocks_misses_fenced_block :
    extract_code_blocks_spec "```\nx = 1\n```" = ["\nx = 1\n"] ∧
    extract_code_blocks "```\nx = 1\n```" = ["```\nx = 1\n```"] ∧
    ("```\nx = 1\n```" : String) ≠ "\nx = 1\n" :=
  ⟨by decide, by decide, by decide⟩

/-- C2 counterexample: a caught solve failure does not produce the five-key
record the claim promises — the record has exactly the two keys `status`
and `message`, and `objective_value`, `variables` and `constraints` are
absent rather than collapsed to empty mappings. -/
theorem failed_solve_record_has_two_keys :
    ∃ rec, ((⟨"cbc"⟩ : PuLPSolver).solve_model "tmp_model.py"
        PulpExecOutcome.noModelBound []).1 = Except.ok rec ∧
      rec.map Prod.fst = ["status", "message"] ∧
      rec.lookup "objective_value" = none ∧
      rec.lookup "variables" = none ∧
      rec.lookup "constraints" = none ∧
      rec.lookup "status" = some (PyValue.str "error") :=
  ⟨errorRecord noModelMsg, rfl, rfl, rfl, rfl, rfl, rfl⟩

/-- C2 amended: a successful solve returns the full record (five keys for
PuLP — status, objective_value, variables, constraints, solver_used — and six
for Pyomo, whose metadata is termination_condition plus solver_time), while
every caught failure in either variant returns the two-key record
`{status: "error", message}`: success and failure differ in record shape,
not only in the status field. -/
theorem solve_record_key_shape (self : PuLPSolver) (pself : PyomoSolver)
    (tmp msg : String) (fs : List String) (m : LpProblem) (pm : PyomoModel)
    (r : SolverResults) :
    (self._process_results m).map Prod.fst
      = ["status", "objective_value", "variables", "constraints", "solver_used"] ∧
    (pself._process_results pm r).map Prod.fst
      = ["status", "termination_condition", "objective_value", "variables",
         "constraints", "solver_time"] ∧
    (self.solve_model tmp (PulpExecOutcome.solved m) fs).1
      = Except.ok (self._process_results m) ∧
    (self.solve_model tmp (PulpExecOutcome.execRaises msg) fs).1
      = Except.ok (errorRecord msg) ∧
    (self.solve_model tmp PulpExecOutcome.noModelBound fs).1
      = Except.ok (errorRecord noModelMsg) ∧
    (self.solve_model tmp (PulpExecOutcome.solveRaises msg) fs).1
      = Except.ok (errorRecord msg) ∧
    (pself.solve_model tmp (PyomoExecOutcome.solved pm r) fs).1
      = Except.ok (pself._process_results pm r) ∧
    (pself.solve_model tmp (PyomoExecOutcome.execRaises msg) fs).1
      = Except.ok (errorRecord msg) ∧
    (pself.solve_model tmp PyomoExecOutcome.noModelBound fs).1
      = Except.ok (errorRecord noModelMsg) ∧
    (pself.solve_model tmp (PyomoExecOutcome.solveRaises msg) fs).1
      = Except.ok (errorRecord msg) ∧
    (errorRecord msg).map Prod.fst = ["status", "message"] :=
  ⟨rfl, rfl, rfl, rfl, rfl, rfl, rfl, rfl, rfl, rfl, rfl⟩

/-- C3 counterexample: on a framework outside {pyomo, pulp} the validator
does not raise anything — `validate_model` returns a verdict (a failed one),
so it does not mirror the parser's raising behaviour. -/
theorem validate_model_unknown_framework_no_raise :
    validate_model ⟨none⟩ "tensorflow"
      = Except.ok (false, ["Unsupported framework: tensorflow"]) := rfl

/-- C3 amended: for a framework outside {pyomo, pulp} (case-insensitively)
the validator returns the failed verdict `(false, ["Unsupported framework:
..."])` without raising, while the parser's `parse_to_model` is the place
that raises `ValueError` for the same input. -/
theorem unknown_framework_split_behaviour (mc : ModelComponents) (text fw : String)
    (h1 : pyLower fw ≠ "pyomo") (h2 : pyLower fw ≠ "pulp") :
    validate_model mc fw = Except.ok (false, ["Unsupported framework: " ++ fw]) ∧
    parse_to_model text fw
      = Except.error (PyErr.valueError ("Unsupported framework: " ++ fw)) := by
  refine ⟨by simp [validate_model, h1, h2], ?_⟩
  obtain ⟨code, hcode⟩ := select_best_fragment_some (extract_code_blocks text)
    (extract_code_blocks_ne_nil text)
  simp [parse_to_model, hcode, h1, h2]

/-- Witness for the amended C3 at the concrete framework name `keras`. -/
theorem unknown_framework_split_behaviour_witness :
    validate_model ⟨none⟩ "keras"
      = Except.ok (false, ["Unsupported framework: " ++ "keras"]) ∧
    parse_to_model "x" "keras"
      = Except.error (PyErr.valueError ("Unsupported framework: " ++ "keras")) :=
  unknown_framework_split_behaviour ⟨none⟩ "x" "keras" (by decide) (by decide)

/-- C4 counterexample: the Pyomo variant's constructor has no registry at
all — an arbitrary unknown solver name whose probe reports unavailable is
accepted and stored verbatim, with no `UnsupportedSolver` failure and no
downgrade to a default back-end. -/
theorem pyomo_init_accepts_any_name :
    PyomoSolver.init (fun _ => false) "no_such_solver" = ⟨"no_such_solver"⟩ := rfl

/-- C4 amended: only the PuLP (LinearExpression) constructor behaves as
claimed — unknown names fail with `ValueError`, unavailable recognized names
silently downgrade to `cbc`, available ones are kept; the Pyomo
(ConstraintBased) constructor accepts every name unchanged and never fails
or downgrades, whatever the availability probe says. -/
theorem solver_constructor_spec (avail : String → Bool) (name : String) :
    (pyLower name ∉ SOLVER_MAP_keys →
      PuLPSolver.init avail name = Except.error (PyErr.valueError ("Solver " ++
        name ++ " not supported. Choose from: ['cbc', 'gurobi', 'glpk', 'cplex']"))) ∧
    (pyLower name ∈ SOLVER_MAP_keys → avail (pyLower name) = true →
      PuLPSolver.init avail name = Except.ok ⟨pyLower name⟩) ∧
    (pyLower name ∈ SOLVER_MAP_keys → avail (pyLower name) = false →
      PuLPSolver.init avail name = Except.ok ⟨"cbc"⟩) ∧
    PyomoSolver.init avail name = ⟨name⟩ := by
  refine ⟨fun h => ?_, fun h ha => ?_, fun h ha => ?_, rfl⟩
  · simp [PuLPSolver.init, h]
  · simp [PuLPSolver.init, h, ha]
  · simp [PuLPSolver.init, h, ha]

/-- Witness for the amended C4: an upper-cased recognized name with an
unavailable back-end downgrades to cbc; an unknown name fails. -/
theorem solver_constructor_spec_witness :
    PuLPSolver.init (fun _ => false) "GUROBI" = Except.ok ⟨"cbc"⟩ ∧
    PuLPSolver.init (fun _ => true) "simplex" = Except.error (PyErr.valueError
      ("Solver " ++ "simplex" ++
        " not supported. Choose from: ['cbc', 'gurobi', 'glpk', 'cplex']")) :=
  ⟨(solver_constructor_spec (fun _ => false) "GUROBI").2.2.1 (by decide) rfl,
   (solver_constructor_spec (fun _ => true) "simplex").1 (by decide)⟩

/-- C5 counterexample: for a successfully solved Pyomo model holding two
decision variables, the normalizer's output maps no variable at all — its
`variables` dict is empty and its `objective_value` is `None`. -/
theorem pyomo_normalizer_empty_variables :
    ((⟨"highs"⟩ : PyomoSolver)._process_results ⟨["x1", "x2"]⟩
        ⟨"ok", "optimal", 1⟩).lookup "variables" = some (PyValue.dict []) ∧
    ((⟨"highs"⟩ : PyomoSolver)._process_results ⟨["x1", "x2"]⟩
        ⟨"ok", "optimal", 1⟩).lookup "objective_value" = some PyValue.pyNone :=
  ⟨rfl, rfl⟩

/-- C5 amended: only the PuLP normalizer maps each decision variable of the
solved model to its value, bounds and category (verbatim); the Pyomo
normalizer always returns an empty `variables` dict and a `None` objective.
On the solved state of the spec's example model (maximize `10*x1 + 15*x2`
with `5*x1 + 7*x2 <= 100`, both variables nonnegative, optimum `x1 = 0`,
`x2 = 100/7`), the PuLP record reports status Optimal, a nonnegative
objective value, and exactly `x1` and `x2` with non-null values. -/
theorem normalizer_variable_mapping (self : PuLPSolver) (m : LpProblem)
    (v : LpVariable) (hv : v ∈ m.variables) :
    varEntry v ∈ variablesEntries (self._process_results m) ∧
    (∀ (pself : PyomoSolver) (pm : PyomoModel) (r : SolverResults),
      variablesEntries (pself._process_results pm r) = [] ∧
      (pself._process_results pm r).lookup "objective_value"
        = some PyValue.pyNone) ∧
    ((self._process_results exampleSolved).lookup "status"
        = some (PyValue.str "Optimal") ∧
      (self._process_results exampleSolved).lookup "objective_value"
        = some (PyValue.num (1500 / 7)) ∧
      (0 : Rat) ≤ 1500 / 7 ∧
      (variablesEntries (self._process_results exampleSolved)).map Prod.fst
        = ["x1", "x2"] ∧
      (variablesEntries (self._process_results exampleSolved)).lookup "x1"
        = some (PyValue.dict [("value", PyValue.num 0),
            ("lower_bound", PyValue.num 0), ("upper_bound", PyValue.pyNone),
            ("category", PyValue.str "Continuous")]) ∧
      (variablesEntries (self._process_results exampleSolved)).lookup "x2"
        = some (PyValue.dict [("value", PyValue.num (100 / 7)),
            ("lower_bound", PyValue.num 0), ("upper_bound", PyValue.pyNone),
            ("category", PyValue.str "Continuous")])) := by
  refine ⟨?_, fun pself pm r => ⟨rfl, rfl⟩, rfl, rfl, by norm_num, rfl, rfl, rfl⟩
  rw [variablesEntries_pulp]
  exact List.mem_map_of_mem varEntry hv

/-- Witness for the amended C5 at the example model's first variable. -/
theorem normalizer_variable_mapping_witness :
    varEntry ⟨"x1", some 0, some 0, none, "Continuous"⟩ ∈
      variablesEntries ((⟨"cbc"⟩ : PuLPSolver)._process_results exampleSolved) :=
  (normalizer_variable_mapping ⟨"cbc"⟩ exampleSolved _ (by decide)).1

/-- C6: when the executed fragment binds no `model` variable, `solve_model`
of either variant returns (it does not raise to the caller) a record whose
status is `"error"` and whose message is non-empty. -/
theorem no_model_binding_error_record (self : PuLPSolver) (pself : PyomoSolver)
    (tmp : String) (fs : List String) :
    (∃ rec, (self.solve_model tmp PulpExecOutcome.noModelBound fs).1
        = Except.ok rec ∧
      rec.lookup "status" = some (PyValue.str "error") ∧
      ∃ msg, rec.lookup "message" = some (PyValue.str msg) ∧ msg ≠ "") ∧
    (∃ rec, (pself.solve_model tmp PyomoExecOutcome.noModelBound fs).1
        = Except.ok rec ∧
      rec.lookup "status" = some (PyValue.str "error") ∧
      ∃ msg, rec.lookup "message" = some (PyValue.str msg) ∧ msg ≠ "") :=
  ⟨⟨errorRecord noModelMsg, rfl, rfl, noModelMsg, rfl, by decide⟩,
   ⟨errorRecord noModelMsg, rfl, rfl, noModelMsg, rfl, by decide⟩⟩

/-- C7: for every outcome of the try block — success, caught failure, or a
failure that escapes the call — the `finally` arm removes the staged
temporary file, so a fresh temp name never survives `solve_model` of either
variant and the file system is restored. -/
theorem solve_model_temp_file_cleanup (self : PuLPSolver) (pself : PyomoSolver)
    (tmp : String) (fs : List String) (o : PulpExecOutcome) (po : PyomoExecOutcome)
    (h : tmp ∉ fs) :
    (self.solve_model tmp o fs).2 = fs ∧
    tmp ∉ (self.solve_model tmp o fs).2 ∧
    (pself.solve_model tmp po fs).2 = fs ∧
    tmp ∉ (pself.solve_model tmp po fs).2 := by
  have h1 : (self.solve_model tmp o fs).2 = fs := by
    cases o <;> simp [PuLPSolver.solve_model, List.erase_cons_head]
  have h2 : (pself.solve_model tmp po fs).2 = fs := by
    cases po <;> simp [PyomoSolver.solve_model, List.erase_cons_head]
  refine ⟨h1, ?_, h2, ?_⟩
  · rw [h1]; exact h
  · rw [h2]; exact h

/-- Witness for C7 on a fatal (uncaught) outcome with a concrete fresh temp
name. -/
theorem solve_model_temp_file_cleanup_witness :
    ((⟨"cbc"⟩ : PuLPSolver).solve_model "tmp_abc.py"
        (PulpExecOutcome.fatal "KeyboardInterrupt") ["keep.txt"]).2 = ["keep.txt"] ∧
    "tmp_abc.py" ∉ ((⟨"cbc"⟩ : PuLPSolver).solve_model "tmp_abc.py"
        (PulpExecOutcome.fatal "KeyboardInterrupt") ["keep.txt"]).2 ∧
    ((⟨"highs"⟩ : PyomoSolver).solve_model "tmp_abc.py"
        (PyomoExecOutcome.fatal "KeyboardInterrupt") ["keep.txt"]).2 = ["keep.txt"] ∧
    "tmp_abc.py" ∉ ((⟨"highs"⟩ : PyomoSolver).solve_model "tmp_abc.py"
        (PyomoExecOutcome.fatal "KeyboardInterrupt") ["keep.txt"]).2 :=
  solve_model_temp_file_cleanup ⟨"cbc"⟩ ⟨"highs"⟩ "tmp_abc.py" ["keep.txt"]
    (PulpExecOutcome.fatal "KeyboardInterrupt")
    (PyomoExecOutcome.fatal "KeyboardInterrupt") (by decide)

/-- C8: whenever `validate_model` returns a verdict (rather than raising),
the overall-valid flag is true exactly when the issue list is empty. -/
theorem validate_flag_iff_issues_empty (mc : ModelComponents) (fw : String)
    (b : Bool) (issues : List String)
    (h : validate_model mc fw = Except.ok (b, issues)) :
    b = true ↔ issues = [] := by
  by_cases hpy : pyLower fw = "pyomo"
  · by_cases hc : (mc.imports.getD []).any
        (fun imp => containsSub "pyomo".data (pyLower imp).data)
    · simp [validate_model, _validate_pyomo_model, hpy, hc] at h
      obtain ⟨rfl, rfl⟩ := h
      simp
    · simp [validate_model, _validate_pyomo_model, hpy, hc] at h
      obtain ⟨rfl, rfl⟩ := h
      simp
  · by_cases hpu : pyLower fw = "pulp"
    · simp [validate_model, hpy, hpu] at h
    · simp [validate_model, hpy, hpu] at h
      obtain ⟨rfl, rfl⟩ := h
      simp

/-- Witness for C8 on a verdict-returning call: a pyomo facts record with the
expected import yields the flag true and no issues. -/
theorem validate_flag_iff_issues_empty_witness :
    (true = true ↔ ([] : List String) = []) :=
  validate_flag_iff_issues_empty ⟨some ["pyomo.environ as pyo"]⟩ "pyomo" true [] rfl

/-- C9: on every non-empty fragment list the selection returns a fragment of
greatest character length, and every fragment occurring before the returned
one is strictly shorter — ties go to the first occurrence. -/
theorem select_best_fragment_longest_first (l : List String) (h : l ≠ []) :
    ∃ best l₁ l₂, select_best_fragment l = some best ∧
      l = l₁ ++ best :: l₂ ∧
      (∀ y ∈ l, y.length ≤ best.length) ∧
      (∀ y ∈ l₁, y.length < best.length) := by
  cases l with
  | nil => exact absurd rfl h
  | cons x xs =>
    obtain ⟨l₁, l₂, hdec, hacc, h₁, h₂⟩ := pickLonger_foldl_split xs x
    refine ⟨xs.foldl pickLonger x, l₁, l₂, rfl, hdec, ?_, h₁⟩
    intro y hy
    rw [hdec] at hy
    rcases List.mem_append.mp hy with hy | hy
    · exact le_of_lt (h₁ y hy)
    · rcases List.mem_cons.mp hy with rfl | hy
      · exact le_refl _
      · exact h₂ y hy

/-- Witness for C9 on a list with a length tie: the first of the two
length-5 fragments is selected. -/
theorem select_best_fragment_longest_first_witness :
    ∃ best l₁ l₂, select_best_fragment ["ab", "abcde", "xyzvw", "abc"] = some best ∧
      ["ab", "abcde", "xyzvw", "abc"] = l₁ ++ best :: l₂ ∧
      (∀ y ∈ ["ab", "abcde", "xyzvw", "abc"], y.length ≤ best.length) ∧
      (∀ y ∈ l₁, y.length < best.length) :=
  select_best_fragment_longest_first ["ab", "abcde", "xyzvw", "abc"] (by decide)

/-- C10: for every facts record, validating with the framework `pulp`
raises `AttributeError` instead of returning a verdict — the dispatch target
`_validate_pulp_model` is never defined on the `ModelValidator` class. -/
theorem validate_model_pulp_attribute_error (mc : ModelComponents) :
    validate_model mc "pulp" = Except.error (PyErr.attributeError
      "'ModelValidator' object has no attribute '_validate_pulp_model'") := rfl

end AutoOptiML
